import Mathlib

/-!
Verification of the AI-Medibot frontend decision/display logic.

The definitions below are a shallow embedding of the TypeScript sources:
- src/frontend/web/app/chat/page.tsx  (chat page: risk projection, banners,
  citations and advisory rendering, onSend turn handling)
- src/frontend/web/lib/api.ts         (API client: token handling, apiFetch,
  authenticated helpers, error message extraction)
- src/unnamed/part_000                (escalations page: onResolve)

Confidence scores are JS numbers in the source; they are embedded as
rationals (ℚ), with the 0.4 threshold written as 2/5.  Backend components
that are not part of the shipped sources (confidence fusion, the escalation
manager) are modelled from the spec and marked as such in their doc
comments.
-/

namespace Medibot

/-- Message role, from the UIMessage type in chat/page.tsx. -/
inductive Role
  | user
  | assistant
deriving DecidableEq, Repr

/-- A citation attached to an assistant message (UIMessage.citations entry
in chat/page.tsx). -/
structure Citation where
  title : Option String := none
  source : Option String := none
  source_file : Option String := none
  page_number : Option Nat := none
deriving DecidableEq, Repr

/-- UIMessage from chat/page.tsx.  Optional fields keep the TypeScript
optionality: an absent field is `none`, and JS truthiness tests such as
`m.emergency_detected === true` become comparisons with `some true`. -/
structure UIMessage where
  id : String
  role : Role
  content : String
  chat_message_id : Option Nat := none
  citations : Option (List Citation) := none
  emergency_detected : Option Bool := none
  risk_level : Option String := none
  confidence_score : Option ℚ := none
  model_mode : Option String := none
deriving DecidableEq, Repr

/-- ASCII lowercasing of one character, as JS `toLowerCase` acts on the
ASCII range (the only range exercised by the greeting comparison). -/
def charLower (c : Char) : Char :=
  if ('A' ≤ c && c ≤ 'Z') then Char.ofNat (c.toNat + 32) else c

/-- Embedding of JS `String.prototype.toLowerCase` (ASCII range). -/
def jsToLower (s : String) : String := ⟨s.data.map charLower⟩

/-- Embedding of JS `String.prototype.startsWith`. -/
def jsStartsWith (s p : String) : Bool := p.data.isPrefixOf s.data

/-- The ASCII whitespace characters relevant to JS `trim`. -/
def isJsWhitespace (c : Char) : Bool :=
  c == ' ' || c == '\t' || c == '\n' || c == '\r'

/-- Embedding of JS `String.prototype.trim` (ASCII whitespace). -/
def jsTrim (s : String) : String :=
  ⟨((s.data.dropWhile isJsWhitespace).reverse.dropWhile isJsWhitespace).reverse⟩

/-- The last assistant message of the history, as computed by
`[...messages].reverse().find(m => m.role === "assistant")`. -/
def lastAssistant (msgs : List UIMessage) : Option UIMessage :=
  msgs.reverse.find? (fun m => m.role == Role.assistant)

/-- The last user message of the history, as computed by
`[...messages].reverse().find(m => m.role === "user")`. -/
def lastUser (msgs : List UIMessage) : Option UIMessage :=
  msgs.reverse.find? (fun m => m.role == Role.user)

/-- `conversationRisk` from chat/page.tsx (lines 95-106): "low" when there is
no assistant message, "emergency" when the last assistant message has
`emergency_detected === true`, "high" when its risk_level is "high",
otherwise "low". -/
def conversationRisk (msgs : List UIMessage) : String :=
  match lastAssistant msgs with
  | none => "low"
  | some m =>
      if m.emergency_detected == some true then "emergency"
      else if m.risk_level == some "high" then "high"
      else "low"

/-- `hadPreviousEmergency` from chat/page.tsx (lines 108-112):
`messages.some(m => m.role === "assistant" && m.emergency_detected === true)`. -/
def hadPreviousEmergency (msgs : List UIMessage) : Bool :=
  msgs.any (fun m => m.role == Role.assistant && m.emergency_detected == some true)

/-- The greeting list of `isNonMedicalTurn` in chat/page.tsx. -/
def nonMedicalGreetings : List String :=
  ["hi", "hello", "thanks", "thank you", "bye"]

/-- `isNonMedicalTurn` from chat/page.tsx (lines 114-125): false when there
is no user message, otherwise true iff the lowercased last user message
starts with one of the greeting strings. -/
def isNonMedicalTurn (msgs : List UIMessage) : Bool :=
  match lastUser msgs with
  | none => false
  | some m =>
      nonMedicalGreetings.any (fun p => jsStartsWith (jsToLower m.content) p)

/-- The "previous emergency" badge condition of the chat header
(chat/page.tsx lines 312-318): shown when the conversation risk is not
"emergency", some earlier assistant message was an emergency, and the turn
is not a non-medical greeting turn. -/
def previousEmergencyBadgeShown (msgs : List UIMessage) : Bool :=
  conversationRisk msgs != "emergency" &&
    hadPreviousEmergency msgs &&
    !(isNonMedicalTurn msgs)

/-- `isEmergency` for a rendered message (chat/page.tsx line 342):
`m.emergency_detected === true`. -/
def isEmergency (m : UIMessage) : Bool :=
  m.emergency_detected == some true

/-- Whether the Sources block is rendered for a message (chat/page.tsx
lines 459-483): only inside the assistant-extras block, only when the
message is not an emergency and its citations array is present and
non-empty. -/
def citationsShown (m : UIMessage) : Bool :=
  m.role == Role.assistant &&
    !(isEmergency m) &&
    (match m.citations with
     | some cs => !cs.isEmpty
     | none => false)

/-- The citation list actually rendered to the user for a message: the
message's citations when the Sources block is shown, nothing otherwise. -/
def renderedCitations (m : UIMessage) : List Citation :=
  if citationsShown m then m.citations.getD [] else []

/-- Whether the low-confidence warning is rendered under a message
(chat/page.tsx lines 449-456): assistant role, a numeric confidence score,
and score strictly below 0.4. -/
def lowConfidenceAdvisoryShown (m : UIMessage) : Bool :=
  m.role == Role.assistant &&
    (match m.confidence_score with
     | some c => decide (c < 2/5)
     | none => false)

/-- ExplainResponse from lib/api.ts (lines 49-68). -/
structure ExplainResponse where
  chat_message_id : Nat
  risk_level : String
  emergency_detected : Bool
  risk_reason : String
  risk_trigger : Option String := none
  primary_domain : Option String := none
  all_domains : Option (List String) := none
  model_name : Option String := none
  created_at : Option String := none
  confidence_score : Option ℚ := none
  reasoning_summary : Option String := none
  suppression_reason : Option String := none
deriving DecidableEq, Repr

/-- Whether the explain drawer renders its low-confidence notice
(chat/page.tsx lines 558-565): a numeric confidence score strictly below
0.4. -/
def drawerLowConfidenceNoticeShown (d : ExplainResponse) : Bool :=
  match d.confidence_score with
  | some c => decide (c < 2/5)
  | none => false

/-- The per-message risk label: "emergency" when `emergency_detected` is
true, "high" when risk_level is "high", otherwise "low" — the branch body
of `conversationRisk` for a single assistant message. -/
def messageRisk (m : UIMessage) : String :=
  if m.emergency_detected == some true then "emergency"
  else if m.risk_level == some "high" then "high"
  else "low"

/-- Modelled from the spec: the backend Confidence Fusion component
(`fuse` in §4.4) is not among the shipped frontend sources; per the spec,
when both confidences are available,
final_confidence = min(retrieval_confidence, generation_confidence). -/
def fuse (retrieval_confidence generation_confidence : ℚ) : ℚ :=
  min retrieval_confidence generation_confidence

/-- The chat page state that the header render reads (chat/page.tsx):
the message history and the set of manually escalated message ids. -/
structure ChatState where
  messages : List UIMessage
  escalatedIds : List Nat
deriving Repr

/-- The header view produced by rendering (chat/page.tsx lines 295-330):
the risk label and whether the "previous emergency" badge is shown. -/
structure HeaderView where
  riskLabel : String
  previousEmergencyBadge : Bool
deriving DecidableEq, Repr

/-- The chat header render step.  The JSX of chat/page.tsx performs no
state update while rendering (no setState call occurs in the render body),
so the embedding returns the state unchanged together with the view that is
displayed. -/
def renderHeader (s : ChatState) : ChatState × HeaderView :=
  (s, { riskLabel := conversationRisk s.messages
      , previousEmergencyBadge := previousEmergencyBadgeShown s.messages })

/-! ### Error-message extraction and user-visible failure paths -/

/-- The outcome of trying to read a failed HTTP response's body, the
ramified input of `readErrorMessage` in lib/api.ts (lines 114-129): the
body parses as JSON with a string `detail`, with an array `detail`
(serialized via JSON.stringify), as other JSON (serialized whole), or it is
not JSON and yields plain text, or even reading the text fails. -/
inductive BodyRead
  | jsonDetailString (detail : String)
  | jsonDetailArray (serialized : String)
  | jsonOther (serialized : String)
  | textBody (text : String)
  | unreadable
deriving DecidableEq, Repr

/-- `readErrorMessage` from lib/api.ts (lines 114-129): prefers the JSON
`detail` field, then the serialized JSON, then the raw text (or
"Request failed: status" when the text is empty or unreadable). -/
def readErrorMessage (status : Nat) (body : BodyRead) : String :=
  match body with
  | .jsonDetailString d => d
  | .jsonDetailArray s => s
  | .jsonOther s => s
  | .textBody t => if t = "" then "Request failed: " ++ toString status else t
  | .unreadable => "Request failed: " ++ toString status

/-- The fixed failure message appended by onSend's catch branch
(chat/page.tsx line 197). -/
def genericSendFailureMessage : String :=
  "Something went wrong while sending your message. Please try again."

/-- The assistant content shown when a turn request fails (chat/page.tsx
lines 190-199): the catch branch ignores the error value entirely and
always shows the generic message. -/
def onSendFailureContent (_errMsg : Option String) : String :=
  genericSendFailureMessage

/-- The alert text of the escalations page's onResolve catch branch
(src/unnamed/part_000 lines 38-48): `alert(e?.message ?? "Failed to
resolve escalation")` — the thrown error's message when present, the
fallback otherwise. -/
def onResolveFailureAlert (errMsg : Option String) : String :=
  errMsg.getD "Failed to resolve escalation"

/-! ### Escalation records and resolution -/

/-- An escalation record, as listed by the escalations page
(src/unnamed/part_000) and described by the spec's Escalation data model. -/
structure Escalation where
  id : Nat
  conversation_id : Nat
  reason : String
  notes : String
  resolved : Bool
  created_at : Nat
  resolved_at : Option Nat := none
deriving DecidableEq, Repr

/-- Failure taxonomy of the resolve operation. -/
inductive ResolveError
  | NotFound
deriving DecidableEq, Repr

/-- Modelled from the spec: the backend Escalation Manager's
`resolve(escalation_id)` (§4.6) is not among the shipped frontend sources
(lib/api.ts only issues the PATCH request).  Per the spec it fails with
NotFound if the escalation is absent, is a no-op success if already
resolved, and otherwise flips resolved to true and stamps the resolution
time. -/
def resolve (store : List Escalation) (eid : Nat) (now : Nat) :
    Except ResolveError (Escalation × List Escalation) :=
  match store.find? (fun e => e.id == eid) with
  | none => Except.error ResolveError.NotFound
  | some e =>
      if e.resolved then Except.ok (e, store)
      else
        let e2 := { e with resolved := true, resolved_at := some now }
        Except.ok (e2, store.map (fun x => if x.id == eid then e2 else x))

/-! ### The onSend turn handler -/

/-- ChatResponse from lib/api.ts (lines 19-31). -/
structure ChatResponse where
  conversation_id : Nat
  reply : String
  chat_message_id : Nat
  citations : Option (List Citation) := none
  risk_level : Option String := none
  emergency_detected : Option Bool := none
  confidence_score : Option ℚ := none
  suppression_reason : Option String := none
  model_mode : Option String := none
deriving DecidableEq, Repr

/-- The slice of chat page state that onSend reads and writes:
the message history, the input box, and the sending flag. -/
structure SendState where
  messages : List UIMessage
  input : String
  sending : Bool
deriving DecidableEq, Repr

/-- The user message appended by onSend (chat/page.tsx lines 158-162),
with `uid` standing for the generated crypto.randomUUID(). -/
def mkUserMsg (uid text : String) : UIMessage :=
  { id := uid, role := Role.user, content := text }

/-- The "Thinking..." placeholder appended by onSend (chat/page.tsx
line 169), with `tid` the generated placeholder id. -/
def thinkingMsg (tid : String) : UIMessage :=
  { id := tid, role := Role.assistant, content := "Thinking..." }

/-- The assistant message built from a successful ChatResponse
(chat/page.tsx lines 176-186), with `aid` the generated id. -/
def assistantFromResponse (aid : String) (res : ChatResponse) : UIMessage :=
  { id := aid
  , role := Role.assistant
  , content := res.reply
  , chat_message_id := some res.chat_message_id
  , citations := some (res.citations.getD [])
  , emergency_detected := res.emergency_detected
  , risk_level := res.risk_level
  , confidence_score := res.confidence_score
  , model_mode := res.model_mode }

/-- The synchronous head of onSend (chat/page.tsx lines 151-170): does
nothing (returns none) when the trimmed input is empty or a send is
already in flight; otherwise clears the input, sets sending, and appends
the user message plus the Thinking placeholder. -/
def onSendStart (s : SendState) (uid tid : String) : Option SendState :=
  let text := jsTrim s.input
  if (text == "") || s.sending then none
  else
    some { messages := s.messages ++ [mkUserMsg uid text, thinkingMsg tid]
         , input := ""
         , sending := true }

/-- The settling tail of onSend (chat/page.tsx lines 172-202): in both the
success branch (`res = some r`) and the catch branch (`res = none`) the
placeholder with id `tid` is filtered out and exactly one assistant
message is appended; the finally branch clears the sending flag. -/
def onSendSettle (s : SendState) (tid aid : String) (res : Option ChatResponse) :
    SendState :=
  let newMsg : UIMessage :=
    match res with
    | some r => assistantFromResponse aid r
    | none => { id := aid, role := Role.assistant
              , content := genericSendFailureMessage }
  { s with
    messages := (s.messages.filter (fun m => m.id != tid)) ++ [newMsg]
  , sending := false }

/-! ### API client: token storage, apiFetch, authenticated helpers -/

/-- The browser's localStorage slot for the "medibot_token" key.
`none` means no token is stored. -/
abbrev TokenStore := Option String

/-- `getToken` from lib/api.ts (lines 101-104). -/
def getToken (store : TokenStore) : Option String := store

/-- `setToken` from lib/api.ts (lines 106-108). -/
def setToken (_store : TokenStore) (token : String) : TokenStore := some token

/-- `clearToken` from lib/api.ts (lines 110-112). -/
def clearToken (_store : TokenStore) : TokenStore := none

/-- Structured request bodies sent by the helpers (only sendChat sends a
JSON body). -/
inductive ReqBody
  | chat (message : String) (conversation_id : Option Nat)
deriving DecidableEq, Repr

/-- The network request apiFetch would issue: path, method, headers and
body. -/
structure Request where
  path : String
  method : String
  headers : List (String × String)
  body : Option ReqBody
deriving DecidableEq, Repr

/-- `apiFetch` from lib/api.ts (lines 131-162), up to the point the network
request is issued: the Content-Type header is set when a body is present,
and when `auth` is set a missing token makes the call throw
"Not authenticated" before any request exists; otherwise the Authorization
Bearer header is attached.  An `Except.error` result means no network
request was issued. -/
def apiFetch (store : TokenStore) (path method : String)
    (body : Option ReqBody) (auth : Bool) : Except String Request :=
  let headers0 : List (String × String) :=
    if body.isSome then [("Content-Type", "application/json")] else []
  if auth then
    match getToken store with
    | none => Except.error "Not authenticated"
    | some t =>
        Except.ok { path := path, method := method
                  , headers := headers0 ++ [("Authorization", "Bearer " ++ t)]
                  , body := body }
  else
    Except.ok { path := path, method := method, headers := headers0, body := body }

/-- `sendChat` from lib/api.ts (lines 210-219). -/
def sendChat (store : TokenStore) (message : String)
    (conversation_id : Option Nat) : Except String Request :=
  apiFetch store "/api/v1/chat" "POST" (some (ReqBody.chat message conversation_id)) true

/-- `explain` from lib/api.ts (lines 221-227). -/
def explain (store : TokenStore) (chat_message_id : Nat) : Except String Request :=
  apiFetch store ("/api/v1/chat/" ++ toString chat_message_id ++ "/explain")
    "GET" none true

/-- `explainRag` from lib/api.ts (lines 229-235). -/
def explainRag (store : TokenStore) (chat_message_id : Nat) : Except String Request :=
  apiFetch store ("/api/v1/chat/" ++ toString chat_message_id ++ "/explain-rag")
    "GET" none true

/-- `listConversations` from lib/api.ts (lines 237-241). -/
def listConversations (store : TokenStore) : Except String Request :=
  apiFetch store "/api/v1/conversations" "GET" none true

/-- `getConversation` from lib/api.ts (lines 243-249). -/
def getConversation (store : TokenStore) (conversation_id : Nat) :
    Except String Request :=
  apiFetch store ("/api/v1/conversations/" ++ toString conversation_id)
    "GET" none true

/-- `escalateToDoctor` from lib/api.ts (lines 251-257). -/
def escalateToDoctor (store : TokenStore) (chat_message_id : Nat) :
    Except String Request :=
  apiFetch store ("/api/v1/chat/" ++ toString chat_message_id ++ "/escalate")
    "POST" none true

/-- `listEscalations` from lib/api.ts (lines 259-268). -/
def listEscalations (store : TokenStore) : Except String Request :=
  apiFetch store "/api/v1/escalations" "GET" none true

/-- `resolveEscalation` from lib/api.ts (lines 270-276). -/
def resolveEscalation (store : TokenStore) (id : Nat) : Except String Request :=
  apiFetch store ("/api/v1/escalations/" ++ toString id ++ "/resolve")
    "PATCH" none true

/-- TokenResponse from lib/api.ts (lines 7-10). -/
structure TokenResponse where
  access_token : String
  token_type : String
deriving DecidableEq, Repr

/-- The store update performed by a successful `login` (lib/api.ts
line 206): `setToken(data.access_token)`. -/
def loginApply (store : TokenStore) (data : TokenResponse) : TokenStore :=
  setToken store data.access_token

/-! ## Theorems -/

/-- C1: for every assistant message of a turn whose risk verdict is
emergency (emergency_detected = true), no retrieval chunks or sources are
disclosed in that turn's reply: the Sources block is never rendered and the
citation list shown to the user is empty, even if citations were computed
and returned internally (i.e. for every value of `m.citations`). -/
theorem emergency_suppresses_citations (m : UIMessage)
    (h : m.emergency_detected = some true) :
    citationsShown m = false ∧ renderedCitations m = [] := by
  have he : isEmergency m = true := by simp [isEmergency, h]
  have hc : citationsShown m = false := by
    simp [citationsShown, he]
  exact ⟨hc, by simp [renderedCitations, hc]⟩

/-- Witness for C1: an emergency assistant message that did carry a
non-empty internally computed citation list still renders no citations. -/
theorem emergency_suppresses_citations_witness :
    citationsShown
        { id := "a1", role := Role.assistant
        , content := "Please seek immediate medical care."
        , chat_message_id := some 7
        , citations := some [{ title := some "Cardiology handbook" }]
        , emergency_detected := some true
        , risk_level := some "emergency" } = false ∧
    renderedCitations
        { id := "a1", role := Role.assistant
        , content := "Please seek immediate medical care."
        , chat_message_id := some 7
        , citations := some [{ title := some "Cardiology handbook" }]
        , emergency_detected := some true
        , risk_level := some "emergency" } = [] :=
  emergency_suppresses_citations
    { id := "a1", role := Role.assistant
    , content := "Please seek immediate medical care."
    , chat_message_id := some 7
    , citations := some [{ title := some "Cardiology handbook" }]
    , emergency_detected := some true
    , risk_level := some "emergency" } rfl

/-- C2: for an assistant message carrying a numeric confidence score, the
low-confidence advisory is rendered iff the score is strictly below 0.4,
and likewise for the explain drawer's low-confidence notice. -/
theorem low_confidence_advisory_iff (m : UIMessage) (d : ExplainResponse)
    (c cd : ℚ) (hm : m.role = Role.assistant)
    (hc : m.confidence_score = some c) (hd : d.confidence_score = some cd) :
    (lowConfidenceAdvisoryShown m = true ↔ c < 2/5) ∧
    (drawerLowConfidenceNoticeShown d = true ↔ cd < 2/5) := by
  constructor
  · simp [lowConfidenceAdvisoryShown, hm, hc]
  · simp [drawerLowConfidenceNoticeShown, hd]

/-- Witness for C2: a 0.3-confidence assistant message shows the advisory
while a 0.5-confidence explain record shows no drawer notice. -/
theorem low_confidence_advisory_iff_witness :
    lowConfidenceAdvisoryShown
        { id := "m1", role := Role.assistant, content := "reply"
        , confidence_score := some (3/10) } = true ∧
    drawerLowConfidenceNoticeShown
        { chat_message_id := 1, risk_level := "low"
        , emergency_detected := false, risk_reason := "no pattern matched"
        , confidence_score := some (1/2) } = false := by
  have h := low_confidence_advisory_iff
      { id := "m1", role := Role.assistant, content := "reply"
      , confidence_score := some (3/10) }
      { chat_message_id := 1, risk_level := "low"
      , emergency_detected := false, risk_reason := "no pattern matched"
      , confidence_score := some (1/2) }
      (3/10) (1/2) rfl rfl rfl
  refine ⟨h.1.mpr (by norm_num), ?_⟩
  have h2 : ¬ (drawerLowConfidenceNoticeShown
      { chat_message_id := 1, risk_level := "low"
      , emergency_detected := false, risk_reason := "no pattern matched"
      , confidence_score := some (1/2) } = true) := by
    intro hh
    have := h.2.mp hh
    norm_num at this
  exact Bool.eq_false_iff.mpr h2

/-- C3: the fused final confidence is the minimum of retrieval and
generation confidence; in particular 0.9 fused with 0.3 gives 0.3, which
makes an assistant message carrying that score show the low-confidence
advisory since 0.3 < 0.4. -/
theorem fuse_conjunctive_min (r g : ℚ) :
    fuse r g = min r g ∧
    fuse (9/10) (3/10) = 3/10 ∧
    lowConfidenceAdvisoryShown
      { id := "m2", role := Role.assistant, content := "reply"
      , confidence_score := some (fuse (9/10) (3/10)) } = true := by
  refine ⟨rfl, ?_, ?_⟩
  · rw [fuse, min_def]
    norm_num
  · have hv : fuse (9/10) (3/10) = (3/10 : ℚ) := by
      rw [fuse, min_def]; norm_num
    simp [lowConfidenceAdvisoryShown, hv]
    norm_num

/-- Witness for C3: the fusion at the spec's pinned values, 0.9 with 0.3
giving 0.3 and triggering the advisory. -/
theorem fuse_conjunctive_min_witness :
    fuse (9/10) (3/10) = 3/10 ∧
    lowConfidenceAdvisoryShown
      { id := "m2", role := Role.assistant, content := "reply"
      , confidence_score := some (fuse (9/10) (3/10)) } = true :=
  (fuse_conjunctive_min (9/10) (3/10)).2

/-- C4: the conversation's displayed risk is a function of the most recent
assistant message only — it equals `messageRisk` of the last assistant
message ("emergency" on its emergency flag, "high" on risk_level "high",
otherwise "low") and "low" when no assistant message exists; in particular
appending a new assistant message makes the risk depend on it alone, so an
emergency verdict on an earlier turn does not carry over. -/
theorem conversationRisk_message_scoped :
    (∀ msgs : List UIMessage,
      conversationRisk msgs = (lastAssistant msgs).elim "low" messageRisk) ∧
    (∀ (msgs : List UIMessage) (m : UIMessage), m.role = Role.assistant →
      conversationRisk (msgs ++ [m]) = messageRisk m) := by
  constructor
  · intro msgs
    cases h : lastAssistant msgs <;>
      simp [conversationRisk, h, messageRisk]
  · intro msgs m hm
    have hl : lastAssistant (msgs ++ [m]) = some m := by
      simp [lastAssistant, List.find?_cons, hm]
    simp [conversationRisk, hl, messageRisk]

/-- Witness for C4: a conversation whose first assistant message was an
emergency but whose latest assistant message is ordinary reports "low"
risk — the earlier emergency does not stick. -/
theorem conversationRisk_message_scoped_witness :
    conversationRisk
      ([{ id := "a1", role := Role.assistant, content := "seek care now"
        , emergency_detected := some true, risk_level := some "emergency" }] ++
       [{ id := "a2", role := Role.assistant, content := "ordinary answer"
        , emergency_detected := some false, risk_level := some "low" }]) = "low" := by
  have h := conversationRisk_message_scoped.2
      [{ id := "a1", role := Role.assistant, content := "seek care now"
       , emergency_detected := some true, risk_level := some "emergency" }]
      { id := "a2", role := Role.assistant, content := "ordinary answer"
      , emergency_detected := some false, risk_level := some "low" } rfl
  simpa [messageRisk] using h

/-- C5: the "previous emergency" badge is a derived read-only projection:
`hadPreviousEmergency` holds exactly when some assistant message in the
history has emergency_detected = true, and rendering the header returns
the chat state unchanged (nothing is written back into risk or message
state) while the displayed badge is exactly that pure projection combined
with the header's display conditions. -/
theorem hadPreviousEmergency_readonly_projection :
    (∀ msgs : List UIMessage,
      (hadPreviousEmergency msgs = true ↔
        ∃ m ∈ msgs, m.role = Role.assistant ∧ m.emergency_detected = some true)) ∧
    (∀ s : ChatState,
      (renderHeader s).1 = s ∧
      (renderHeader s).2.previousEmergencyBadge =
        (conversationRisk s.messages != "emergency" &&
          hadPreviousEmergency s.messages && !(isNonMedicalTurn s.messages))) := by
  constructor
  · intro msgs
    simp [hadPreviousEmergency, List.any_eq_true]
  · intro s
    exact ⟨rfl, rfl⟩

/-- Witness for C5: on a one-emergency history the projection holds and
rendering the header returns the state unchanged. -/
theorem hadPreviousEmergency_readonly_projection_witness :
    hadPreviousEmergency
      [{ id := "a1", role := Role.assistant, content := "seek care now"
       , emergency_detected := some true }] = true ∧
    (renderHeader
      { messages := [{ id := "a1", role := Role.assistant
                     , content := "seek care now"
                     , emergency_detected := some true }]
      , escalatedIds := [] }).1 =
      { messages := [{ id := "a1", role := Role.assistant
                     , content := "seek care now"
                     , emergency_detected := some true }]
      , escalatedIds := [] } :=
  ⟨(hadPreviousEmergency_readonly_projection.1
      [{ id := "a1", role := Role.assistant, content := "seek care now"
       , emergency_detected := some true }]).mpr
    ⟨{ id := "a1", role := Role.assistant, content := "seek care now"
     , emergency_detected := some true }, by simp, rfl, rfl⟩,
   (hadPreviousEmergency_readonly_projection.2
      { messages := [{ id := "a1", role := Role.assistant
                     , content := "seek care now"
                     , emergency_detected := some true }]
      , escalatedIds := [] }).1⟩

/-- C6 counterexample: the escalation resolution failure path is
user-visible and shows the thrown error's message verbatim.  When the
backend responds with an internal detail string, `readErrorMessage`
surfaces it, apiFetch throws it, and the onResolve alert displays exactly
that internal collaborator detail — not a generic message. -/
theorem resolve_failure_alert_leaks_detail :
    onResolveFailureAlert
        (some (readErrorMessage 500
          (BodyRead.jsonDetailString "IntegrityError: db constraint violated")))
      = "IntegrityError: db constraint violated" ∧
    onResolveFailureAlert
        (some (readErrorMessage 500
          (BodyRead.jsonDetailString "IntegrityError: db constraint violated")))
      ≠ "Failed to resolve escalation" ∧
    onResolveFailureAlert
        (some (readErrorMessage 500
          (BodyRead.jsonDetailString "IntegrityError: db constraint violated")))
      ≠ genericSendFailureMessage := by
  refine ⟨rfl, by decide, by decide⟩

/-- C6 amended: failures of the chat turn request itself (onSend) always
show the fixed generic message, whatever the error carried; but the
escalation resolution failure path displays the thrown error's own message
(which apiFetch fills with backend error detail) and falls back to a
generic text only when the error has no message. -/
theorem send_failure_generic_resolve_failure_not (e : Option String) (s : String) :
    onSendFailureContent e = genericSendFailureMessage ∧
    onResolveFailureAlert none = "Failed to resolve escalation" ∧
    onResolveFailureAlert (some s) = s :=
  ⟨rfl, rfl, rfl⟩

/-- Witness for the amended C6: a concrete backend detail string flows
through the onResolve alert unchanged, while onSend stays generic. -/
theorem send_failure_generic_resolve_failure_not_witness :
    onSendFailureContent (some "backend detail") = genericSendFailureMessage ∧
    onResolveFailureAlert none = "Failed to resolve escalation" ∧
    onResolveFailureAlert (some "backend detail") = "backend detail" :=
  send_failure_generic_resolve_failure_not (some "backend detail") "backend detail"

/-- Helper for C7: after stamping the found escalation as resolved, looking
the id up again finds the stamped record. -/
theorem find?_map_stamp (store : List Escalation) (eid : Nat) (e e2 : Escalation)
    (hfind : store.find? (fun x => x.id == eid) = some e) (hid : e2.id = eid) :
    (store.map (fun x => if x.id == eid then e2 else x)).find?
        (fun x => x.id == eid) = some e2 := by
  induction store with
  | nil => simp at hfind
  | cons a as ih =>
      cases hb : (a.id == eid) with
      | false =>
          rw [List.find?_cons_of_neg _ (by simp [hb])] at hfind
          rw [List.map_cons]
          have ha : (if a.id == eid then e2 else a) = a := by simp [hb]
          rw [ha, List.find?_cons_of_neg _ (by simp [hb])]
          exact ih hfind
      | true =>
          rw [List.map_cons]
          have ha : (if a.id == eid then e2 else a) = e2 := by simp [hb]
          rw [ha, List.find?_cons_of_pos _ (by simp [hid])]

/-- C7: resolve fails with NotFound when the escalation id is absent, is a
no-op success when the record is already resolved, and otherwise flips
resolved to true; moreover any successful resolve yields a resolved record
and resolving the same id again succeeds with the same record and store
(idempotent second call, no error). -/
theorem resolve_notfound_idempotent (store : List Escalation) (eid now now2 : Nat) :
    (store.find? (fun e => e.id == eid) = none →
      resolve store eid now = Except.error ResolveError.NotFound) ∧
    (∀ e, store.find? (fun x => x.id == eid) = some e → e.resolved = true →
      resolve store eid now = Except.ok (e, store)) ∧
    (∀ e1 s1, resolve store eid now = Except.ok (e1, s1) →
      e1.resolved = true ∧ resolve s1 eid now2 = Except.ok (e1, s1)) := by
  refine ⟨?_, ?_, ?_⟩
  · intro h
    simp [resolve, h]
  · intro e he hres
    simp [resolve, he, hres]
  · intro e1 s1 hok
    cases hfind : store.find? (fun x => x.id == eid) with
    | none =>
        have hval : resolve store eid now = Except.error ResolveError.NotFound := by
          simp [resolve, hfind]
        rw [hval] at hok
        simp at hok
    | some e =>
        have hide : e.id = eid := by
          have := List.find?_some hfind
          simpa using this
        by_cases hres : e.resolved = true
        · have hval : resolve store eid now = Except.ok (e, store) := by
            simp [resolve, hfind, hres]
          rw [hval] at hok
          simp only [Except.ok.injEq, Prod.mk.injEq] at hok
          obtain ⟨he1, hs1⟩ := hok
          subst he1
          subst hs1
          exact ⟨hres, by simp [resolve, hfind, hres]⟩
        · have hval : resolve store eid now =
              Except.ok ({ e with resolved := true, resolved_at := some now },
                store.map (fun x =>
                  if x.id == eid then
                    { e with resolved := true, resolved_at := some now }
                  else x)) := by
            simp [resolve, hfind, hres]
          rw [hval] at hok
          simp only [Except.ok.injEq, Prod.mk.injEq] at hok
          obtain ⟨he1, hs1⟩ := hok
          subst he1
          subst hs1
          refine ⟨rfl, ?_⟩
          have hf := find?_map_stamp store eid e
              { e with resolved := true, resolved_at := some now } hfind hide
          unfold resolve
          rw [hf]
          rfl

/-- Witness for C7: resolving a concrete unresolved escalation succeeds
with resolved = true, and resolving it a second time succeeds again with
the same resolved record and unchanged store. -/
theorem resolve_notfound_idempotent_witness :
    resolve [{ id := 1, conversation_id := 2, reason := "emergency detected"
             , notes := "", resolved := false, created_at := 100 }] 1 5
      = Except.ok
          ({ id := 1, conversation_id := 2, reason := "emergency detected"
           , notes := "", resolved := true, created_at := 100
           , resolved_at := some 5 },
           [{ id := 1, conversation_id := 2, reason := "emergency detected"
            , notes := "", resolved := true, created_at := 100
            , resolved_at := some 5 }]) ∧
    ({ id := 1, conversation_id := 2, reason := "emergency detected"
     , notes := "", resolved := true, created_at := 100
     , resolved_at := some 5 } : Escalation).resolved = true ∧
    resolve [{ id := 1, conversation_id := 2, reason := "emergency detected"
             , notes := "", resolved := true, created_at := 100
             , resolved_at := some 5 }] 1 9
      = Except.ok
          ({ id := 1, conversation_id := 2, reason := "emergency detected"
           , notes := "", resolved := true, created_at := 100
           , resolved_at := some 5 },
           [{ id := 1, conversation_id := 2, reason := "emergency detected"
            , notes := "", resolved := true, created_at := 100
            , resolved_at := some 5 }]) := by
  have hok : resolve [{ id := 1, conversation_id := 2, reason := "emergency detected"
                      , notes := "", resolved := false, created_at := 100 }] 1 5
      = Except.ok
          ({ id := 1, conversation_id := 2, reason := "emergency detected"
           , notes := "", resolved := true, created_at := 100
           , resolved_at := some 5 },
           [{ id := 1, conversation_id := 2, reason := "emergency detected"
            , notes := "", resolved := true, created_at := 100
            , resolved_at := some 5 }]) := rfl
  have h := (resolve_notfound_idempotent
      [{ id := 1, conversation_id := 2, reason := "emergency detected"
       , notes := "", resolved := false, created_at := 100 }] 1 5 9).2.2
      { id := 1, conversation_id := 2, reason := "emergency detected"
      , notes := "", resolved := true, created_at := 100, resolved_at := some 5 }
      [{ id := 1, conversation_id := 2, reason := "emergency detected"
       , notes := "", resolved := true, created_at := 100, resolved_at := some 5 }]
      hok
  exact ⟨hok, h.1, h.2⟩

/-- C8: the non-medical classification of a turn is a bare startsWith test
on the lowercased last user message against the greeting list, so any
message beginning with "hi" — including medical ones such as "High fever"
— counts as non-medical, and whenever that happens the previous-emergency
hint is suppressed. -/
theorem greeting_start_suppresses_hint (msgs : List UIMessage) (m : UIMessage)
    (hlast : lastUser msgs = some m) :
    (isNonMedicalTurn msgs = true ↔
      ∃ p ∈ nonMedicalGreetings, jsStartsWith (jsToLower m.content) p = true) ∧
    (jsStartsWith (jsToLower m.content) "hi" = true →
      previousEmergencyBadgeShown msgs = false) := by
  have hchar : isNonMedicalTurn msgs = true ↔
      ∃ p ∈ nonMedicalGreetings, jsStartsWith (jsToLower m.content) p = true := by
    simp [isNonMedicalTurn, hlast, List.any_eq_true]
  refine ⟨hchar, ?_⟩
  intro hhi
  have h1 : isNonMedicalTurn msgs = true :=
    hchar.mpr ⟨"hi", by simp [nonMedicalGreetings], hhi⟩
  simp [previousEmergencyBadgeShown, h1]

/-- Witness for C8: a conversation with a previous emergency whose last
user message is "High fever" — a medical message — is classified
non-medical (it starts with "hi" after lowercasing) and the
previous-emergency hint is suppressed. -/
theorem greeting_start_suppresses_hint_witness :
    hadPreviousEmergency
      [{ id := "u1", role := Role.user, content := "I have crushing chest pain" },
       { id := "a1", role := Role.assistant
        , content := "Please seek immediate medical care."
        , emergency_detected := some true, risk_level := some "emergency" },
       { id := "u2", role := Role.user, content := "High fever" },
       { id := "a2", role := Role.assistant, content := "General advice"
        , emergency_detected := some false, risk_level := some "low" }] = true ∧
    isNonMedicalTurn
      [{ id := "u1", role := Role.user, content := "I have crushing chest pain" },
       { id := "a1", role := Role.assistant
        , content := "Please seek immediate medical care."
        , emergency_detected := some true, risk_level := some "emergency" },
       { id := "u2", role := Role.user, content := "High fever" },
       { id := "a2", role := Role.assistant, content := "General advice"
        , emergency_detected := some false, risk_level := some "low" }] = true ∧
    previousEmergencyBadgeShown
      [{ id := "u1", role := Role.user, content := "I have crushing chest pain" },
       { id := "a1", role := Role.assistant
        , content := "Please seek immediate medical care."
        , emergency_detected := some true, risk_level := some "emergency" },
       { id := "u2", role := Role.user, content := "High fever" },
       { id := "a2", role := Role.assistant, content := "General advice"
        , emergency_detected := some false, risk_level := some "low" }] = false := by
  have h := greeting_start_suppresses_hint
      [{ id := "u1", role := Role.user, content := "I have crushing chest pain" },
       { id := "a1", role := Role.assistant
        , content := "Please seek immediate medical care."
        , emergency_detected := some true, risk_level := some "emergency" },
       { id := "u2", role := Role.user, content := "High fever" },
       { id := "a2", role := Role.assistant, content := "General advice"
        , emergency_detected := some false, risk_level := some "low" }]
      { id := "u2", role := Role.user, content := "High fever" } rfl
  refine ⟨rfl, ?_, h.2 (by decide)⟩
  exact h.1.mpr ⟨"hi", by simp [nonMedicalGreetings], by decide⟩

/-- C9: onSend does nothing when the trimmed input is empty or a send is
in flight; otherwise it appends the user message and a Thinking
placeholder, sets the sending flag, and — assuming the generated ids are
fresh — after the request settles (success or failure alike) the sending
flag is cleared, the placeholder is gone, and the history equals the prior
messages plus the user message plus exactly one assistant message. -/
theorem onSend_turn_invariant (s : SendState) (uid tid aid : String)
    (res : Option ChatResponse) :
    ((jsTrim s.input = "" ∨ s.sending = true) → onSendStart s uid tid = none) ∧
    (jsTrim s.input ≠ "" → s.sending = false →
      ∃ s1, onSendStart s uid tid = some s1 ∧ s1.sending = true ∧
        (tid ∉ s.messages.map UIMessage.id → uid ≠ tid → aid ≠ tid →
          (onSendSettle s1 tid aid res).sending = false ∧
          (onSendSettle s1 tid aid res).messages =
            s.messages ++ [mkUserMsg uid (jsTrim s.input),
              (match res with
               | some r => assistantFromResponse aid r
               | none => { id := aid, role := Role.assistant
                         , content := genericSendFailureMessage })] ∧
          tid ∉ ((onSendSettle s1 tid aid res).messages.map UIMessage.id))) := by
  constructor
  · rintro (h | h) <;> simp [onSendStart, h]
  · intro h1 h2
    have hcond : ((jsTrim s.input == "") || s.sending) = false := by
      rw [h2]
      simp [h1]
    refine ⟨{ messages := s.messages ++ [mkUserMsg uid (jsTrim s.input), thinkingMsg tid]
            , input := "", sending := true }, ?_, rfl, ?_⟩
    · simp only [onSendStart, hcond]
      rfl
    · intro hnot hne1 hne2
      have hfilterA : s.messages.filter (fun m => m.id != tid) = s.messages := by
        apply List.filter_eq_self.mpr
        intro a ha
        have hne : a.id ≠ tid := fun hh => hnot (List.mem_map.mpr ⟨a, ha, hh⟩)
        simpa using hne
      have hfilterB : ([mkUserMsg uid (jsTrim s.input), thinkingMsg tid]).filter
          (fun m => m.id != tid) = [mkUserMsg uid (jsTrim s.input)] := by
        simp [mkUserMsg, thinkingMsg, hne1]
      have hmsg : (onSendSettle
            { messages := s.messages ++ [mkUserMsg uid (jsTrim s.input), thinkingMsg tid]
            , input := "", sending := true } tid aid res).messages =
          s.messages ++ [mkUserMsg uid (jsTrim s.input),
            (match res with
             | some r => assistantFromResponse aid r
             | none => { id := aid, role := Role.assistant
                       , content := genericSendFailureMessage })] := by
        show (s.messages ++ [mkUserMsg uid (jsTrim s.input), thinkingMsg tid]).filter
            (fun m => m.id != tid) ++ _ = _
        rw [List.filter_append, hfilterA, hfilterB, List.append_assoc]
        rfl
      refine ⟨rfl, hmsg, ?_⟩
      rw [hmsg]
      intro hmem
      rw [List.map_append] at hmem
      rcases List.mem_append.mp hmem with hA | hB
      · exact hnot hA
      · cases res with
        | some r =>
            simp [mkUserMsg, assistantFromResponse] at hB
            rcases hB with h | h
            · exact hne1 h.symm
            · exact hne2 h.symm
        | none =>
            simp [mkUserMsg] at hB
            rcases hB with h | h
            · exact hne1 h.symm
            · exact hne2 h.symm

/-- Witness for C9: a full turn on a concrete empty history whose request
fails — the placeholder is gone and exactly one assistant message (the
generic failure reply) was appended. -/
theorem onSend_turn_invariant_witness :
    ∃ s1, onSendStart { messages := [], input := "fever for two days"
                      , sending := false } "u1" "t1" = some s1 ∧
      s1.sending = true ∧
      ((onSendSettle s1 "t1" "a1" none).sending = false ∧
       (onSendSettle s1 "t1" "a1" none).messages =
         [] ++ [mkUserMsg "u1" (jsTrim "fever for two days"),
           { id := "a1", role := Role.assistant
           , content := genericSendFailureMessage }] ∧
       "t1" ∉ ((onSendSettle s1 "t1" "a1" none).messages.map UIMessage.id)) := by
  obtain ⟨s1, h1, h2, h3⟩ := (onSend_turn_invariant
      { messages := [], input := "fever for two days", sending := false }
      "u1" "t1" "a1" none).2 (by decide) rfl
  exact ⟨s1, h1, h2, h3 (by decide) (by decide) (by decide)⟩

/-- C10: every authenticated API helper throws "Not authenticated" before
issuing any network request when no token is stored (an error result means
no request was built), and after a successful login stores the returned
access_token each helper issues a request carrying the Authorization
Bearer header for that token. -/
theorem auth_token_guard (store : TokenStore) (data : TokenResponse)
    (msg : String) (cid mid eid2 : Nat) :
    (getToken store = none →
      sendChat store msg (some cid) = Except.error "Not authenticated" ∧
      explain store mid = Except.error "Not authenticated" ∧
      explainRag store mid = Except.error "Not authenticated" ∧
      listConversations store = Except.error "Not authenticated" ∧
      getConversation store cid = Except.error "Not authenticated" ∧
      escalateToDoctor store mid = Except.error "Not authenticated" ∧
      listEscalations store = Except.error "Not authenticated" ∧
      resolveEscalation store eid2 = Except.error "Not authenticated") ∧
    (getToken (loginApply store data) = some data.access_token ∧
      (∃ r, sendChat (loginApply store data) msg (some cid) = Except.ok r ∧
        ("Authorization", "Bearer " ++ data.access_token) ∈ r.headers) ∧
      (∃ r, explain (loginApply store data) mid = Except.ok r ∧
        ("Authorization", "Bearer " ++ data.access_token) ∈ r.headers) ∧
      (∃ r, explainRag (loginApply store data) mid = Except.ok r ∧
        ("Authorization", "Bearer " ++ data.access_token) ∈ r.headers) ∧
      (∃ r, listConversations (loginApply store data) = Except.ok r ∧
        ("Authorization", "Bearer " ++ data.access_token) ∈ r.headers) ∧
      (∃ r, getConversation (loginApply store data) cid = Except.ok r ∧
        ("Authorization", "Bearer " ++ data.access_token) ∈ r.headers) ∧
      (∃ r, escalateToDoctor (loginApply store data) mid = Except.ok r ∧
        ("Authorization", "Bearer " ++ data.access_token) ∈ r.headers) ∧
      (∃ r, listEscalations (loginApply store data) = Except.ok r ∧
        ("Authorization", "Bearer " ++ data.access_token) ∈ r.headers) ∧
      (∃ r, resolveEscalation (loginApply store data) eid2 = Except.ok r ∧
        ("Authorization", "Bearer " ++ data.access_token) ∈ r.headers)) := by
  constructor
  · intro h
    have hs : store = none := h
    subst hs
    exact ⟨rfl, rfl, rfl, rfl, rfl, rfl, rfl, rfl⟩
  · refine ⟨rfl, ?_, ?_, ?_, ?_, ?_, ?_, ?_, ?_⟩ <;>
      exact ⟨_, rfl, by simp⟩

/-- Witness for C10: with an empty token store all eight helpers fail with
"Not authenticated", and a login that returned access_token "tok123"
leaves "tok123" in the store. -/
theorem auth_token_guard_witness :
    sendChat none "hello" (some 1) = Except.error "Not authenticated" ∧
    explain none 2 = Except.error "Not authenticated" ∧
    explainRag none 2 = Except.error "Not authenticated" ∧
    listConversations none = Except.error "Not authenticated" ∧
    getConversation none 1 = Except.error "Not authenticated" ∧
    escalateToDoctor none 2 = Except.error "Not authenticated" ∧
    listEscalations none = Except.error "Not authenticated" ∧
    resolveEscalation none 3 = Except.error "Not authenticated" ∧
    getToken (loginApply none
      { access_token := "tok123", token_type := "bearer" }) = some "tok123" := by
  have h := auth_token_guard none
      { access_token := "tok123", token_type := "bearer" } "hello" 1 2 3
  obtain ⟨h1, h2, h3, h4, h5, h6, h7, h8⟩ := h.1 rfl
  exact ⟨h1, h2, h3, h4, h5, h6, h7, h8, h.2.1⟩

end Medibot
